import Mathlib

/-!
Verification development for the `NetworkInventorySystem` orchestrator in
`scripts/10_complete_examples/complete_network_automation.py`.

The Python code is shallowly embedded: parsed JSON documents become the
inductive `JsonVal`, the mutable `self.device_status` dict becomes an
insertion-ordered association list `StatusMap`, random draws and clock reads
become explicit parameters (`ProbeEnv`, timestamp strings), and Python
exceptions become `Option`/`Except` error values.
-/

set_option autoImplicit false
set_option maxRecDepth 8192

namespace NetInv

/-- A parsed JSON document, as produced by Python's `json.load`.
Objects are insertion-ordered association lists with unique keys
(as `json.load` produces). -/
inductive JsonVal where
  | null
  | bool (b : Bool)
  | num (n : Int)
  | str (s : String)
  | arr (xs : List JsonVal)
  | obj (fields : List (String × JsonVal))

/-- First-match lookup in an object's field list (Python `d[k]` / `d.get(k)`
on a dict with unique keys). -/
def lookupField : List (String × JsonVal) → String → Option JsonVal
  | [], _ => none
  | p :: rest, key => if p.1 == key then some p.2 else lookupField rest key

/-- Python truthiness (`bool(x)`) of a JSON value. -/
def truthy : JsonVal → Bool
  | .null => false
  | .bool b => b
  | .num n => n != 0
  | .str s => !s.isEmpty
  | .arr xs => !xs.isEmpty
  | .obj fs => !fs.isEmpty

/-- Python `str_key == x` for a JSON value `x`: equality with a string is
`False` for every non-string value and string equality otherwise. -/
def strEqJson (s : String) : JsonVal → Bool
  | .str t => s == t
  | _ => false

/-- Whether `pat` occurs as a contiguous substring of the character list. -/
def strContainsAux (pat : List Char) : List Char → Bool
  | [] => pat.isEmpty
  | c :: t => pat.isPrefixOf (c :: t) || strContainsAux pat t

/-- Whether `pat` occurs as a substring of `s` (Python `pat in s`). -/
def strContains (s pat : String) : Bool :=
  strContainsAux pat.toList s.toList

/-- Python `key in container`. For dicts this is key membership, for lists it
is element equality with the string, for strings it is the substring test;
for the remaining values the membership test raises `TypeError` (`none`). -/
def pyContains (container : JsonVal) (key : String) : Option Bool :=
  match container with
  | .obj fs => some (lookupField fs key).isSome
  | .arr xs => some (xs.any (strEqJson key))
  | .str s => some (strContains s key)
  | _ => none

/-- Python `container[key]` with a string key: a dict lookup (raising
`KeyError` when absent); on every other value it raises `TypeError`
(`none`). -/
def pyGetItem (container : JsonVal) (key : String) : Option JsonVal :=
  match container with
  | .obj fs => lookupField fs key
  | _ => none

/-- Python `len(x)`: defined for strings, lists and dicts, raising
`TypeError` (`none`) otherwise. -/
def pyLen : JsonVal → Option Nat
  | .str s => some s.length
  | .arr xs => some xs.length
  | .obj fs => some fs.length
  | _ => none

/-- Python iteration (`for device in x`): a list yields its elements, a
string its one-character substrings, a dict its keys; other values raise
`TypeError` (`none`). -/
def pyEnumerate : JsonVal → Option (List JsonVal)
  | .arr xs => some xs
  | .str s => some (s.toList.map (fun c => JsonVal.str (String.mk [c])))
  | .obj fs => some (fs.map (fun p => JsonVal.str p.1))
  | _ => none

/-! ## The `socket.inet_aton` collaborator

`_validate_device_config` delegates the host check to the C library's
`inet_aton` (see inet(3)), which Python's own documentation notes "also
accepts strings with less than three dots".  The parser below models that
numbers-and-dots grammar: up to four dot-separated numeric parts, each in
decimal, octal (leading `0`) or hexadecimal (leading `0x`), every
dot-terminated part at most 255, the final part bounded by the remaining
address width, optionally followed by whitespace. -/

/-- Hexadecimal digit test. -/
def isHexDigitC (c : Char) : Bool :=
  c.isDigit || (decide ('a' ≤ c) && decide (c ≤ 'f')) || (decide ('A' ≤ c) && decide (c ≤ 'F'))

/-- Octal digit test. -/
def isOctDigitC (c : Char) : Bool :=
  decide ('0' ≤ c) && decide (c ≤ '7')

/-- Numeric value of a (hex) digit character. -/
def hexDigitVal (c : Char) : Nat :=
  if c.isDigit then c.toNat - 48
  else if decide ('a' ≤ c) && decide (c ≤ 'f') then c.toNat - 97 + 10
  else c.toNat - 65 + 10

/-- Value of a digit string in the given base. -/
def digitsVal (base : Nat) (ds : List Char) : Nat :=
  ds.foldl (fun acc c => acc * base + hexDigitVal c) 0

/-- C whitespace (`isspace`). -/
def isSpaceC (c : Char) : Bool :=
  c == ' ' || c == '\t' || c == '\n' || c == '\r' || c == '\x0b' || c == '\x0c'

/-- Parse one numeric part of an inet(3) address (strtoul with base
detection); the part must start with a digit.  Returns the value and the
unconsumed characters. -/
def parsePart : List Char → Option (Nat × List Char)
  | [] => none
  | c :: rest =>
    if !c.isDigit then none
    else if c == '0' then
      match rest with
      | x :: rest2 =>
        if (x == 'x' || x == 'X')
            && (match rest2 with | y :: _ => isHexDigitC y | [] => false) then
          some (digitsVal 16 (rest2.takeWhile isHexDigitC), rest2.dropWhile isHexDigitC)
        else
          some (digitsVal 8 (rest.takeWhile isOctDigitC), rest.dropWhile isOctDigitC)
      | [] => some (0, [])
    else
      some (digitsVal 10 ((c :: rest).takeWhile Char.isDigit),
            (c :: rest).dropWhile Char.isDigit)

/-- Main inet(3) parsing loop: collect the dot-terminated parts (at most
three of them, each at most 255) and the final part.  `fuel` dominates the
input length, so the loop never runs out when started with
`length + 1`. -/
def atonLoop : Nat → List Char → List Nat → Option (List Nat × Nat × List Char)
  | 0, _, _ => none
  | fuel + 1, cs, dotted =>
    match parsePart cs with
    | none => none
    | some (v, rest) =>
      if 4294967295 < v then none
      else
        match rest with
        | '.' :: rest2 =>
          if 3 ≤ dotted.length ∨ 255 < v then none
          else atonLoop fuel rest2 (dotted ++ [v])
        | _ => some (dotted, v, rest)

/-- `socket.inet_aton(s)` succeeds: the numbers-and-dots grammar of inet(3),
with the final part bounded by the address width left over by the
dot-terminated parts. -/
def inet_aton_ok (s : String) : Bool :=
  match atonLoop (s.toList.length + 1) s.toList [] with
  | none => false
  | some (dotted, v, rest) =>
    rest.all isSpaceC && decide (v < 2 ^ (32 - 8 * dotted.length))

/-! ## Device loading and validation (`load_devices`, `_validate_device_config`) -/

/-- The four required record fields of `_validate_device_config`. -/
def requiredFields : List String := ["device_type", "host", "username", "password"]

/-- The required-field loop of `_validate_device_config`: for each field,
`if field not in device or not device[field]: return False`.  `none` models
a raised `TypeError` (membership or indexing on an unsupported value). -/
def checkFields (device : JsonVal) : List String → Option Bool
  | [] => some true
  | fld :: rest =>
    match pyContains device fld with
    | none => none
    | some false => some false
    | some true =>
      match pyGetItem device fld with
      | none => none
      | some v => if truthy v then checkFields device rest else some false

/-- `_validate_device_config(device)`: the required-field loop followed by
the `socket.inet_aton(device['host'])` check (whose `socket.error` is caught
and turned into a `False` result; a `TypeError` from a non-string host
escapes, modelled as `none`). -/
def validateDevice (device : JsonVal) : Option Bool :=
  match checkFields device requiredFields with
  | none => none
  | some false => some false
  | some true =>
    match pyGetItem device "host" with
    | none => none
    | some hostVal =>
      match hostVal with
      | .str h => some (inet_aton_ok h)
      | _ => none

/-- The validation loop of `load_devices`: keep the records that validate,
drop the ones that do not, and propagate a raised exception (`none`). -/
def filterValid : List JsonVal → Option (List JsonVal)
  | [] => some []
  | d :: rest =>
    match validateDevice d with
    | none => none
    | some ok =>
      match filterValid rest with
      | none => none
      | some tail => some (if ok then d :: tail else tail)

/-- Outcome of opening and JSON-parsing the devices file. -/
inductive FileRead where
  | absent
  | invalidJson
  | content (data : JsonVal)

/-- The body of `load_devices` after a successful `json.load`:
`if 'devices' in data: self.devices = data['devices'] else:
self.devices = [data] if isinstance(data, dict) else data`, then
`len(self.devices)`, then the validation loop, then
`return len(self.devices) > 0`.  `none` models an exception reaching the
generic `except Exception` handler. -/
def loadStep (data : JsonVal) : Option (Bool × List JsonVal) :=
  match pyContains data "devices" with
  | none => none
  | some hasKey =>
    match (if hasKey then pyGetItem data "devices"
           else some (match data with
                      | .obj _ => JsonVal.arr [data]
                      | other => other)) with
    | none => none
    | some devicesVal =>
      match pyLen devicesVal with
      | none => none
      | some _ =>
        match pyEnumerate devicesVal with
        | none => none
        | some elems =>
          match filterValid elems with
          | none => none
          | some valid => some (decide (0 < valid.length), valid)

/-- `load_devices`: `False` on a missing file (`FileNotFoundError`), invalid
JSON (`json.JSONDecodeError`) or any other exception; otherwise the result
of `loadStep`.  The returned list is the validated `self.devices` (empty on
the error paths). -/
def load_devices : FileRead → Bool × List JsonVal
  | .absent => (false, [])
  | .invalidJson => (false, [])
  | .content data => (loadStep data).getD (false, [])

/-! ## Device status (`DeviceStatus` dataclass) -/

/-- The `DeviceStatus` dataclass, with the field types its annotations
declare. -/
structure DeviceStatus where
  name : String
  ip_address : String
  device_type : String
  status : String
  uptime : Option String := none
  version : Option String := none
  interfaces_up : Option Int := none
  interfaces_total : Option Int := none
  last_backup : Option String := none
  error_message : Option String := none
deriving DecidableEq

/-- The run's `self.device_status` dict: an insertion-ordered map from
device name to `DeviceStatus`. -/
abbrev StatusMap := List (String × DeviceStatus)

/-- `self.device_status.values()` in insertion order. -/
def values (m : StatusMap) : List DeviceStatus := m.map (fun p => p.2)

/-- Dict lookup `m[k]` / `m.get(k)`. -/
def mapLookup : StatusMap → String → Option DeviceStatus
  | [], _ => none
  | p :: rest, k => if p.1 == k then some p.2 else mapLookup rest k

/-- Dict assignment `m[k] = v`: overwrite in place if the key exists
(keeping its position), append otherwise. -/
def mapInsert : StatusMap → String → DeviceStatus → StatusMap
  | [], k, v => [(k, v)]
  | p :: rest, k, v => if p.1 == k then (k, v) :: rest else p :: mapInsert rest k v

/-- The backup step's single mutation
`self.device_status[name].last_backup = ts`, applied to the copy-on-write
map. -/
def mapUpdateLB : StatusMap → String → String → StatusMap
  | [], _, _ => []
  | p :: rest, k, ts =>
    if p.1 == k then (p.1, { p.2 with last_backup := some ts }) :: rest
    else p :: mapUpdateLB rest k ts

/-! ## Status prober (`simulate_device_connection`) -/

/-- The probe's environment: the random draws and clock reads made by one
call of `simulate_device_connection`.  `connectOk` is the outcome of
`random.random() > success_rate` being false. -/
structure ProbeEnv where
  connectOk : Bool
  uptimeDays : Nat
  uptimeHours : Nat
  verMajor : Nat
  verMinor : Nat
  ifUp : Nat
  now : String
deriving DecidableEq

/-- The string content of a JSON value, when it is a string. -/
def asStr : JsonVal → Option String
  | .str s => some s
  | _ => none

/-- `simulate_device_connection(device)`: compute
`device.get('name', device.get('host'))`, then either build a `connected`
status from the simulated draws or, on a simulated connection failure, a
`failed` status carrying the error message.  `none` models an exception
escaping the function (a non-dict record, a missing `host`/`device_type`
key, or a field outside the dataclass's declared string type). -/
def simulate_device_connection (env : ProbeEnv) (device : JsonVal) : Option DeviceStatus :=
  match device with
  | .obj fs =>
    match asStr ((lookupField fs "name").getD ((lookupField fs "host").getD JsonVal.null)) with
    | none => none
    | some device_name =>
      match lookupField fs "host" with
      | none => none
      | some hv =>
        match asStr hv with
        | none => none
        | some ip =>
          match lookupField fs "device_type" with
          | none => none
          | some dv =>
            match asStr dv with
            | none => none
            | some dt =>
              if env.connectOk then
                some { name := device_name, ip_address := ip, device_type := dt,
                       status := "connected",
                       uptime := some (toString env.uptimeDays ++ " days, "
                         ++ toString env.uptimeHours ++ " hours"),
                       version := some ("Cisco IOS Software, Version "
                         ++ toString env.verMajor ++ "." ++ toString env.verMinor),
                       interfaces_up := some (Int.ofNat env.ifUp),
                       interfaces_total := some 24,
                       last_backup := some env.now,
                       error_message := none }
              else
                some { name := device_name, ip_address := ip, device_type := dt,
                       status := "failed",
                       error_message := some "Simulated connection failure" }
  | _ => none

/-! ## Orchestrator (`inventory_devices`) -/

/-- The orchestrator's results dict (timestamps elided). -/
structure InvResults where
  total_devices : Nat
  successful : Nat
  failed : Nat
  devices : List DeviceStatus
deriving DecidableEq

/-- The fan-in loop over `as_completed`: one completed probe per list
element, in completion order.  A probe that returned a status bumps
`successful` or `failed` by its `status` field, records the status and
stores it in `self.device_status`; a probe whose `future.result()` re-raised
only bumps `failed`. -/
def inventoryFold : List (JsonVal × ProbeEnv) → InvResults → StatusMap → InvResults × StatusMap
  | [], r, m => (r, m)
  | o :: rest, r, m =>
    match simulate_device_connection o.2 o.1 with
    | some st =>
      let r' :=
        if st.status == "connected" then
          { r with successful := r.successful + 1, devices := r.devices ++ [st] }
        else
          { r with failed := r.failed + 1, devices := r.devices ++ [st] }
      inventoryFold rest r' (mapInsert m st.name st)
    | none => inventoryFold rest { r with failed := r.failed + 1 } m

/-- `inventory_devices`: fan out one probe per device, then collect every
completed probe.  `outcomes` pairs each device with its probe's random
draws, listed in completion order (the thread pool provides no ordering
guarantee, so the order is arbitrary); `m` is the incoming
`self.device_status`. -/
def inventory_devices (outcomes : List (JsonVal × ProbeEnv)) (m : StatusMap) :
    InvResults × StatusMap :=
  inventoryFold outcomes
    { total_devices := outcomes.length, successful := 0, failed := 0, devices := [] } m

/-! ## Backup step (`backup_configurations`) -/

/-- One iteration of the backup loop: the device's display name
(`device.get('name', device.get('host'))`), whether the config file write
succeeds, the filename timestamp, and the timestamp written into
`last_backup`. -/
structure BackupTask where
  name : String
  writeOk : Bool
  fileStamp : String
  statusStamp : String
deriving DecidableEq

/-- The backup results dict (timestamps elided). -/
structure BackupResults where
  total_devices : Nat
  successful : Nat
  failed : Nat
  backup_files : List String
deriving DecidableEq

/-- The per-device backup loop: on a successful write, count it, record the
backup path and update `last_backup` on the status entry keyed by the
device's name (when present); on a write failure, only count the failure. -/
def backupFold : List BackupTask → BackupResults → StatusMap → BackupResults × StatusMap
  | [], r, m => (r, m)
  | t :: ts, r, m =>
    if t.writeOk then
      let path := t.name ++ "_running_config_" ++ t.fileStamp ++ ".cfg"
      let m' := if (mapLookup m t.name).isSome then mapUpdateLB m t.name t.statusStamp else m
      backupFold ts
        { r with successful := r.successful + 1, backup_files := r.backup_files ++ [path] } m'
    else
      backupFold ts { r with failed := r.failed + 1 } m

/-- `backup_configurations` with the default `target_devices=None`
(backing up all of `self.devices`). -/
def backup_configurations (tasks : List BackupTask) (m : StatusMap) :
    BackupResults × StatusMap :=
  backupFold tasks
    { total_devices := tasks.length, successful := 0, failed := 0, backup_files := [] } m

/-! ## Report generation (`generate_inventory_report` and helpers)

The renderers are modelled as pure functions from the status map to the
written artifact's content; the run timestamp is the `now` parameter.  A
raised exception becomes an `Except.error`. -/

/-- Errors a report generator can raise. -/
inductive ReportError where
  | zeroDivision
  | valueError (fmt : String)
deriving DecidableEq

/-- Python `str(x)` for an optional string field (`str(None) = "None"`). -/
def optStr : Option String → String
  | some s => s
  | none => "None"

/-- Python `str(x)` for an optional int field. -/
def optIntStr : Option Int → String
  | some n => toString n
  | none => "None"

/-- Python `x or ''` for an optional string (CSV cells). -/
def pyOrEmptyS : Option String → String
  | some s => s
  | none => ""

/-- Python `x or ''` for an optional int (CSV cells); note that `0` is
falsy and also becomes the empty cell. -/
def pyOrEmptyI : Option Int → String
  | some n => if n = 0 then "" else toString n
  | none => ""

/-- Python truthiness of an optional string field
(`if device_status.last_backup:`). -/
def pyTruthyOptS : Option String → Bool
  | some s => !s.isEmpty
  | none => false

/-- `sum(1 for d in self.device_status.values() if d.status == s)`. -/
def countStatus (s : String) (m : StatusMap) : Nat :=
  List.countP (fun st => st.status == s) (values m)

/-- A run of `n` copies of one character. -/
def charLine (c : Char) (n : Nat) : String := String.mk (List.replicate n c)

/-- Exact one-decimal rendering of `c / n * 100` with round-half-even,
modelling the `:.1f` formatting of the success rate.  (The source computes
in binary floating point, whose ties can differ in the last digit; no claim
depends on those digits.) -/
def fmtRate (c n : Nat) : String :=
  let num := c * 1000
  let q := num / n
  let r := num % n
  let q2 := if n < 2 * r ∨ (2 * r = n ∧ q % 2 = 1) then q + 1 else q
  toString (q2 / 10) ++ "." ++ toString (q2 % 10)

/-- The per-device block written by `_generate_text_report`, line by
line. -/
def textDeviceLines (st : DeviceStatus) : List String :=
  ["\nDevice: " ++ st.name ++ "\n",
   "  IP Address: " ++ st.ip_address ++ "\n",
   "  Type: " ++ st.device_type ++ "\n",
   "  Status: " ++ st.status ++ "\n"]
  ++ (if st.status == "connected" then
        ["  Uptime: " ++ optStr st.uptime ++ "\n",
         "  Version: " ++ optStr st.version ++ "\n",
         "  Interfaces: " ++ optIntStr st.interfaces_up ++ "/"
           ++ optIntStr st.interfaces_total ++ " up\n"]
        ++ (if pyTruthyOptS st.last_backup then
              ["  Last Backup: " ++ optStr st.last_backup ++ "\n"]
            else [])
      else
        ["  Error: " ++ optStr st.error_message ++ "\n"])

/-- `_generate_text_report`: header, summary (whose success-rate line
divides by the device count and raises `ZeroDivisionError` on an empty
map), then one block per device. -/
def textReport (now : String) (m : StatusMap) : Except ReportError String :=
  let connected := countStatus "connected" m
  let failed := m.length - connected
  if m.length = 0 then .error .zeroDivision
  else
    .ok ("NETWORK DEVICE INVENTORY REPORT\n" ++ charLine '=' 50 ++ "\n"
      ++ "Generated: " ++ now ++ "\n"
      ++ "Total Devices: " ++ toString m.length ++ "\n\n"
      ++ "SUMMARY\n" ++ charLine '-' 20 ++ "\n"
      ++ "Connected Devices: " ++ toString connected ++ "\n"
      ++ "Failed Devices: " ++ toString failed ++ "\n"
      ++ "Success Rate: " ++ fmtRate connected m.length ++ "%\n\n"
      ++ "DEVICE DETAILS\n" ++ charLine '-' 20 ++ "\n"
      ++ String.join ((values m).map (fun st => String.join (textDeviceLines st))))

/-- The per-device `<div>` appended by `_generate_html_report`. -/
def htmlDeviceSection (st : DeviceStatus) : String :=
  "\n        <div class=\"device "
    ++ (if st.status == "connected" then "connected" else "failed") ++ "\">\n"
  ++ "            <h3>" ++ st.name ++ "</h3>\n"
  ++ "            <p><strong>IP:</strong> " ++ st.ip_address ++ "</p>\n"
  ++ "            <p><strong>Type:</strong> " ++ st.device_type ++ "</p>\n"
  ++ "            <p><strong>Status:</strong> " ++ st.status ++ "</p>\n"
  ++ (if st.status == "connected" then
        "\n            <p><strong>Uptime:</strong> " ++ optStr st.uptime ++ "</p>\n"
        ++ "            <p><strong>Version:</strong> " ++ optStr st.version ++ "</p>\n"
        ++ "            <p><strong>Interfaces:</strong> " ++ optIntStr st.interfaces_up
          ++ "/" ++ optIntStr st.interfaces_total ++ " up</p>\n"
      else
        "\n            <p><strong>Error:</strong> " ++ optStr st.error_message ++ "</p>\n")
  ++ "        </div>\n"

/-- The fixed header of `_generate_html_report` (document frame, style
block, generated timestamp, device count and summary table). -/
def htmlHeader (now : String) (m : StatusMap) : String :=
  "\n<!DOCTYPE html>\n<html>\n<head>\n    <title>Network Device Inventory Report</title>\n"
  ++ "    <style>\n"
  ++ "        body \x7b font-family: Arial, sans-serif; margin: 20px; \x7d\n"
  ++ "        .header \x7b background-color: #f0f0f0; padding: 15px; border-radius: 5px; \x7d\n"
  ++ "        .summary \x7b margin: 20px 0; \x7d\n"
  ++ "        .device \x7b border: 1px solid #ddd; margin: 10px 0; padding: 15px; border-radius: 5px; \x7d\n"
  ++ "        .connected \x7b border-left: 4px solid #4CAF50; \x7d\n"
  ++ "        .failed \x7b border-left: 4px solid #f44336; \x7d\n"
  ++ "        table \x7b border-collapse: collapse; width: 100%; \x7d\n"
  ++ "        th, td \x7b border: 1px solid #ddd; padding: 8px; text-align: left; \x7d\n"
  ++ "        th \x7b background-color: #f2f2f2; \x7d\n"
  ++ "    </style>\n</head>\n<body>\n    <div class=\"header\">\n"
  ++ "        <h1>Network Device Inventory Report</h1>\n"
  ++ "        <p>Generated: " ++ now ++ "</p>\n"
  ++ "        <p>Total Devices: " ++ toString m.length ++ "</p>\n"
  ++ "    </div>\n    \n    <div class=\"summary\">\n        <h2>Summary</h2>\n"
  ++ "        <table>\n            <tr><th>Metric</th><th>Value</th></tr>\n"
  ++ "            <tr><td>Total Devices</td><td>" ++ toString m.length ++ "</td></tr>\n"
  ++ "            <tr><td>Connected</td><td>" ++ toString (countStatus "connected" m)
    ++ "</td></tr>\n"
  ++ "            <tr><td>Failed</td><td>" ++ toString (countStatus "failed" m)
    ++ "</td></tr>\n"
  ++ "        </table>\n    </div>\n    \n    <div class=\"devices\">\n"
  ++ "        <h2>Device Details</h2>\n"

/-- `_generate_html_report`: header, one `<div>` per device, closing
frame. -/
def htmlReport (now : String) (m : StatusMap) : String :=
  htmlHeader now m
  ++ String.join ((values m).map htmlDeviceSection)
  ++ "\n    </div>\n</body>\n</html>\n"

/-- JSON encoding of an optional string field (`null` when absent). -/
def jsonOptS : Option String → JsonVal
  | some s => .str s
  | none => .null

/-- JSON encoding of an optional int field (`null` when absent). -/
def jsonOptI : Option Int → JsonVal
  | some n => .num n
  | none => .null

/-- The per-device `device_data` dict built by `_generate_json_report`:
connected devices get the uptime/version/interfaces/last_backup keys,
failed ones only `error_message`. -/
def jsonDeviceData (st : DeviceStatus) : JsonVal :=
  .obj ([("name", .str st.name), ("ip_address", .str st.ip_address),
         ("device_type", .str st.device_type), ("status", .str st.status)]
    ++ (if st.status == "connected" then
          [("uptime", jsonOptS st.uptime), ("version", jsonOptS st.version),
           ("interfaces_up", jsonOptI st.interfaces_up),
           ("interfaces_total", jsonOptI st.interfaces_total),
           ("last_backup", jsonOptS st.last_backup)]
        else
          [("error_message", jsonOptS st.error_message)]))

/-- The `report_data` dict written by `_generate_json_report` (the value
`json.dump` serialises and re-parsing recovers). -/
def jsonReport (now : String) (m : StatusMap) : JsonVal :=
  .obj [("generated", .str now),
        ("total_devices", .num (Int.ofNat m.length)),
        ("summary", .obj [("connected", .num (Int.ofNat (countStatus "connected" m))),
                          ("failed", .num (Int.ofNat (countStatus "failed" m)))]),
        ("devices", .arr ((values m).map jsonDeviceData))]

/-- Field lookup on a JSON object value. -/
def jsonField (j : JsonVal) (key : String) : Option JsonVal :=
  match j with
  | .obj fs => lookupField fs key
  | _ => none

/-- The CSV header written by `DictWriter.writeheader`. -/
def csvFieldnames : List String :=
  ["name", "ip_address", "device_type", "status", "uptime",
   "version", "interfaces_up", "interfaces_total", "last_backup", "error_message"]

/-- One CSV data row, in `csvFieldnames` order, as written by
`_generate_csv_report` (absent and falsy optional fields rendered as the
empty cell via `or ''`). -/
def csvRowCells (st : DeviceStatus) : List String :=
  [st.name, st.ip_address, st.device_type, st.status,
   pyOrEmptyS st.uptime, pyOrEmptyS st.version,
   pyOrEmptyI st.interfaces_up, pyOrEmptyI st.interfaces_total,
   pyOrEmptyS st.last_backup, pyOrEmptyS st.error_message]

/-- `_generate_csv_report`: the header row followed by one row per device
(the cell table the CSV writer serialises and a CSV reader recovers). -/
def csvTable (m : StatusMap) : List (List String) :=
  csvFieldnames :: (values m).map csvRowCells

/-- The rendered report artifact's content. -/
inductive ReportArtifact where
  | text (s : String)
  | html (s : String)
  | json (j : JsonVal)
  | csv (rows : List (List String))

/-- `generate_inventory_report`: dispatch on the format tag, raising
`ValueError` on an unsupported one. -/
def generate_inventory_report (now : String) (fmt : String) (m : StatusMap) :
    Except ReportError ReportArtifact :=
  if fmt == "text" then (textReport now m).map .text
  else if fmt == "html" then .ok (.html (htmlReport now m))
  else if fmt == "json" then .ok (.json (jsonReport now m))
  else if fmt == "csv" then .ok (.csv (csvTable m))
  else .error (.valueError fmt)

/-! ## Derived and claim-side definitions -/

/-- Split a character list on the dot character. -/
def splitDots : List Char → List (List Char)
  | [] => [[]]
  | c :: rest =>
    if c == '.' then [] :: splitDots rest
    else
      match splitDots rest with
      | [] => [[c]]
      | h :: t => (c :: h) :: t

/-- Claim-side: a syntactically valid IPv4 dotted-quad, following the
spec's words — exactly four dot-separated all-decimal components, each
between 0 and 255. -/
def isDottedQuad (s : String) : Bool :=
  let parts := splitDots s.toList
  parts.length == 4
    && parts.all (fun p => !p.isEmpty && p.all Char.isDigit
         && decide (digitsVal 10 p ≤ 255))

/-- Claim-side restatement of the loader's acceptance condition: the record
is an object, its four required fields are present with truthy values, and
its `host` is a string the inet(3) parser accepts. -/
def validRecordSpec (d : JsonVal) : Bool :=
  match d with
  | .obj fs =>
    (requiredFields.all fun fld =>
      match lookupField fs fld with
      | some v => truthy v
      | none => false)
    && (match lookupField fs "host" with
        | some (.str h) => inet_aton_ok h
        | _ => false)
  | _ => false

/-- Device count derivable from the rendered CSV table (rows minus the
header). -/
def csvDeviceCount (t : List (List String)) : Nat := t.length - 1

/-- Status count derivable from the rendered CSV table: data rows whose
`status` column (index 3) holds `s`. -/
def csvStatusCount (t : List (List String)) (s : String) : Nat :=
  List.countP (fun row => row.get? 3 == some s) (t.drop 1)

/-- Overwriting every entry's `last_backup` field (used to state that the
HTML report is independent of that field). -/
def mapSetLB (f : String × DeviceStatus → Option String) (m : StatusMap) : StatusMap :=
  m.map (fun p => (p.1, { p.2 with last_backup := f p }))

/-- Two statuses that agree on every `DeviceStatus` field except possibly
`last_backup`. -/
def agreesExceptLB (st st2 : DeviceStatus) : Prop :=
  st2.name = st.name ∧ st2.ip_address = st.ip_address
    ∧ st2.device_type = st.device_type ∧ st2.status = st.status
    ∧ st2.uptime = st.uptime ∧ st2.version = st.version
    ∧ st2.interfaces_up = st.interfaces_up ∧ st2.interfaces_total = st.interfaces_total
    ∧ st2.error_message = st.error_message

/-! ## Concrete sample data -/

/-- A validated sample device record, in the `devices.json` shape. -/
def recSample : JsonVal :=
  .obj [("name", .str "r1"), ("device_type", .str "cisco_ios"),
        ("host", .str "192.168.1.1"), ("username", .str "admin"),
        ("password", .str "x")]

/-- The spec's bad-host scenario record (`host` = `999.999.999.999`). -/
def recBadHost : JsonVal :=
  .obj [("device_type", .str "cisco_ios"), ("host", .str "999.999.999.999"),
        ("username", .str "admin"), ("password", .str "x")]

/-- A record whose host, `1.2.3`, is not a dotted-quad but is accepted by
inet(3) parsing. -/
def rec3Part : JsonVal :=
  .obj [("device_type", .str "cisco_ios"), ("host", .str "1.2.3"),
        ("username", .str "admin"), ("password", .str "x")]

/-- A connected sample status whose `last_backup` carries the marker value
`LBMARK2024`. -/
def stConnEx : DeviceStatus :=
  { name := "r1", ip_address := "10.0.0.1", device_type := "cisco_ios",
    status := "connected", uptime := some "5 days, 2 hours",
    version := some "Cisco IOS Software, Version 15.1",
    interfaces_up := some 2, interfaces_total := some 4,
    last_backup := some "LBMARK2024", error_message := none }

/-- A failed sample status. -/
def stFailEx : DeviceStatus :=
  { name := "r2", ip_address := "10.0.0.2", device_type := "cisco_ios",
    status := "failed", error_message := some "Simulated connection failure" }

/-- A sample status map with one connected and one failed device. -/
def mapEx : StatusMap := [("r1", stConnEx), ("r2", stFailEx)]

/-- A sample probe environment with a successful connection draw. -/
def envEx : ProbeEnv :=
  { connectOk := true, uptimeDays := 5, uptimeHours := 2, verMajor := 15,
    verMinor := 1, ifUp := 8, now := "NOW" }

/-- A sample backup run: back up `r1` successfully. -/
def tasksEx : List BackupTask :=
  [{ name := "r1", writeOk := true, fileStamp := "20240101_000000",
     statusStamp := "2024-01-01 00:00:00" }]

/-! # Helper lemmas -/

theorem inventoryFold_total (outs : List (JsonVal × ProbeEnv)) :
    ∀ r m, ((inventoryFold outs r m).1).total_devices = r.total_devices := by
  induction outs with
  | nil => intro r m; rfl
  | cons o rest ih =>
    intro r m
    simp only [inventoryFold]
    cases simulate_device_connection o.2 o.1 with
    | none => exact ih _ _
    | some st =>
      cases h : st.status == "connected" <;> simp only [h] <;> exact ih _ _

theorem inventoryFold_counts (outs : List (JsonVal × ProbeEnv)) :
    ∀ r m, ((inventoryFold outs r m).1).successful + ((inventoryFold outs r m).1).failed
      = r.successful + r.failed + outs.length := by
  induction outs with
  | nil => intro r m; simp [inventoryFold]
  | cons o rest ih =>
    intro r m
    cases hsim : simulate_device_connection o.2 o.1 with
    | none =>
      have h2 := ih { r with failed := r.failed + 1 } m
      simp only [inventoryFold, hsim, List.length_cons]
      rw [h2]
      simp only
      omega
    | some st =>
      cases hst : st.status == "connected" with
      | false =>
        have h2 := ih { r with failed := r.failed + 1, devices := r.devices ++ [st] }
          (mapInsert m st.name st)
        simp only [inventoryFold, hsim, hst, Bool.false_eq_true, if_false, List.length_cons]
        rw [h2]
        simp only
        omega
      | true =>
        have h2 := ih { r with successful := r.successful + 1, devices := r.devices ++ [st] }
          (mapInsert m st.name st)
        simp only [inventoryFold, hsim, hst, if_true, List.length_cons]
        rw [h2]
        simp only
        omega

/-! # Claims -/

/-- C1: the claim states that `generate_inventory_report` succeeds on an
empty device-status mapping for all four formats.  It does not: the text
renderer divides by the device count when computing the success rate and
raises `ZeroDivisionError` on the empty mapping, while the html/json/csv
renderers do succeed with device count 0 and no per-device rows, and an
unsupported tag raises `ValueError`. -/
theorem c1_empty_mapping_report :
    generate_inventory_report "T" "text" [] = Except.error ReportError.zeroDivision
    ∧ generate_inventory_report "T" "json" []
        = Except.ok (ReportArtifact.json (JsonVal.obj
            [("generated", JsonVal.str "T"), ("total_devices", JsonVal.num 0),
             ("summary", JsonVal.obj [("connected", JsonVal.num 0),
                                      ("failed", JsonVal.num 0)]),
             ("devices", JsonVal.arr [])]))
    ∧ generate_inventory_report "T" "csv" [] = Except.ok (ReportArtifact.csv [csvFieldnames])
    ∧ (∃ s, generate_inventory_report "T" "html" [] = Except.ok (ReportArtifact.html s))
    ∧ generate_inventory_report "T" "xml" [] = Except.error (ReportError.valueError "xml") :=
  ⟨rfl, rfl, rfl, ⟨_, rfl⟩, rfl⟩

/-- C3: for every completion order of the probe tasks (hence for every
device list and concurrency limit), the orchestrator's reported
`successful + failed` equals the number of submitted devices, which is also
the reported `total_devices`. -/
theorem c3_inventory_counts (outcomes : List (JsonVal × ProbeEnv)) (m : StatusMap) :
    ((inventory_devices outcomes m).1).successful + ((inventory_devices outcomes m).1).failed
        = outcomes.length
    ∧ ((inventory_devices outcomes m).1).total_devices = outcomes.length := by
  constructor
  · have h := inventoryFold_counts outcomes
      { total_devices := outcomes.length, successful := 0, failed := 0, devices := [] } m
    simpa [inventory_devices] using h
  · exact inventoryFold_total outcomes _ m

/-- C9: every status a probe returns with `status = 'connected'` already
has `last_backup` populated (with the probe's own clock read), before any
backup step runs. -/
theorem c9_connected_status_has_backup (env : ProbeEnv) (device : JsonVal)
    (st : DeviceStatus) (h : simulate_device_connection env device = some st)
    (hc : st.status = "connected") :
    st.last_backup = some env.now := by
  unfold simulate_device_connection at h
  repeat' split at h
  all_goals first
    | exact Option.noConfusion h
    | (cases Option.some.inj h; rfl)
    | (cases Option.some.inj h; simp at hc)

/-- Witness for C9 at a concrete record and probe environment. -/
theorem c9_connected_status_has_backup_witness :
    ∃ st, simulate_device_connection envEx recSample = some st
      ∧ st.last_backup = some "NOW" :=
  ⟨_, rfl, c9_connected_status_has_backup envEx recSample _ rfl rfl⟩

/-- C7: on any record carrying string `host` and `device_type` fields (and
a string `name` when present), the probe returns exactly one status for
every random outcome: `connected` with uptime, version and interface counts
populated, or `failed` with an error message; a simulated connection
failure becomes the `failed` status rather than an exception. -/
theorem c7_probe_contract (env : ProbeEnv) (fs : List (String × JsonVal))
    (h dt : String)
    (hhost : lookupField fs "host" = some (JsonVal.str h))
    (hdt : lookupField fs "device_type" = some (JsonVal.str dt))
    (hname : ∀ v, lookupField fs "name" = some v → ∃ s, v = JsonVal.str s) :
    ∃ st, simulate_device_connection env (JsonVal.obj fs) = some st
      ∧ ((st.status = "connected" ∧ st.uptime ≠ none ∧ st.version ≠ none
            ∧ st.interfaces_up ≠ none ∧ st.interfaces_total ≠ none
            ∧ st.error_message = none)
         ∨ (st.status = "failed" ∧ st.error_message ≠ none)) := by
  cases hn : lookupField fs "name" with
  | none =>
    simp only [simulate_device_connection, hn, hhost, hdt, Option.getD_none,
      Option.getD_some, asStr]
    cases hok : env.connectOk
    · exact ⟨_, rfl, Or.inr (by simp)⟩
    · exact ⟨_, rfl, Or.inl (by simp)⟩
  | some v =>
    obtain ⟨s, rfl⟩ := hname v hn
    simp only [simulate_device_connection, hn, hhost, hdt, Option.getD_some, asStr]
    cases hok : env.connectOk
    · exact ⟨_, rfl, Or.inr (by simp)⟩
    · exact ⟨_, rfl, Or.inl (by simp)⟩

/-- Witness for C7 at a concrete record and probe environment. -/
theorem c7_probe_contract_witness :
    ∃ st, simulate_device_connection envEx recSample = some st
      ∧ ((st.status = "connected" ∧ st.uptime ≠ none ∧ st.version ≠ none
            ∧ st.interfaces_up ≠ none ∧ st.interfaces_total ≠ none
            ∧ st.error_message = none)
         ∨ (st.status = "failed" ∧ st.error_message ≠ none)) :=
  c7_probe_contract envEx
    [("name", JsonVal.str "r1"), ("device_type", JsonVal.str "cisco_ios"),
     ("host", JsonVal.str "192.168.1.1"), ("username", JsonVal.str "admin"),
     ("password", JsonVal.str "x")]
    "192.168.1.1" "cisco_ios" rfl rfl
    (fun v hv => ⟨"r1", by simp [lookupField] at hv; exact hv.symm⟩)

theorem csvStatusCount_eq (s : String) (m : StatusMap) :
    csvStatusCount (csvTable m) s = countStatus s m := by
  simp only [csvStatusCount, csvTable, countStatus, List.drop_succ_cons, List.drop_zero]
  induction m with
  | nil => rfl
  | cons p t ih =>
    simp only [values, List.map_cons, List.countP_cons] at ih ⊢
    rw [ih]
    rfl

theorem csvDeviceCount_eq (m : StatusMap) : csvDeviceCount (csvTable m) = m.length := by
  simp [csvDeviceCount, csvTable, values]

theorem countStatus_mapSetLB (s : String) (f : String × DeviceStatus → Option String)
    (m : StatusMap) : countStatus s (mapSetLB f m) = countStatus s m := by
  induction m with
  | nil => rfl
  | cons p t ih =>
    simp only [countStatus, mapSetLB, values, List.map_cons, List.countP_cons] at ih ⊢
    rw [ih]

theorem htmlSections_mapSetLB (f : String × DeviceStatus → Option String) (m : StatusMap) :
    (values (mapSetLB f m)).map htmlDeviceSection = (values m).map htmlDeviceSection := by
  induction m with
  | nil => rfl
  | cons p t ih =>
    simp only [mapSetLB, values, List.map_cons] at ih ⊢
    exact congrArg₂ List.cons rfl ih

theorem htmlReport_mapSetLB (now : String) (f : String × DeviceStatus → Option String)
    (m : StatusMap) : htmlReport now (mapSetLB f m) = htmlReport now m := by
  unfold htmlReport htmlHeader
  rw [htmlSections_mapSetLB, countStatus_mapSetLB, countStatus_mapSetLB]
  simp [mapSetLB]

theorem countStatus_binary : ∀ m : StatusMap,
    (∀ p ∈ m, p.2.status = "connected" ∨ p.2.status = "failed") →
    countStatus "connected" m + countStatus "failed" m = m.length := by
  intro m
  induction m with
  | nil => intro _; rfl
  | cons p t ih =>
    intro hall
    have hp := hall p (List.mem_cons_self p t)
    have ht := ih (fun q hq => hall q (List.mem_cons_of_mem p hq))
    simp only [countStatus, values, List.map_cons, List.countP_cons, List.length_cons] at ht ⊢
    rcases hp with h | h <;> rw [h] <;> simp at ht ⊢ <;> omega

/-- C6: the JSON report, once re-parsed, reports the same total device
count and the same connected and failed counts as are derivable from the
rendered CSV report's rows (row count for the total, `status`-column counts
for connected/failed). -/
theorem c6_json_csv_consistency (now : String) (m : StatusMap) :
    jsonField (jsonReport now m) "total_devices"
      = some (JsonVal.num (Int.ofNat (csvDeviceCount (csvTable m))))
    ∧ (jsonField (jsonReport now m) "summary").bind (fun j => jsonField j "connected")
      = some (JsonVal.num (Int.ofNat (csvStatusCount (csvTable m) "connected")))
    ∧ (jsonField (jsonReport now m) "summary").bind (fun j => jsonField j "failed")
      = some (JsonVal.num (Int.ofNat (csvStatusCount (csvTable m) "failed"))) := by
  refine ⟨?_, ?_, ?_⟩
  · rw [csvDeviceCount_eq]; rfl
  · rw [csvStatusCount_eq]; rfl
  · rw [csvStatusCount_eq]; rfl

/-- C4 counterexample: for a connected device whose `last_backup` is the
marker `LBMARK2024`, the JSON, CSV and text reports all carry the marker,
but the HTML report does not contain it anywhere — the HTML format omits
the `last_backup` field, so the four formats do not carry the same
information set. -/
theorem c4_counterexample :
    strContains (htmlReport "T" mapEx) "LBMARK2024" = false
    ∧ jsonField (jsonDeviceData stConnEx) "last_backup"
        = some (JsonVal.str "LBMARK2024")
    ∧ "LBMARK2024" ∈ csvRowCells stConnEx
    ∧ ("  Last Backup: LBMARK2024\n") ∈ textDeviceLines stConnEx := by
  refine ⟨rfl, rfl, ?_, ?_⟩ <;> decide

/-- C4 amended: for status maps whose statuses are `connected`/`failed`
(the only ones the probe creates), the four formats agree on the device
count and the connected/failed counts (the CSV counts being derived from
its rows); the text, JSON and CSV formats carry the per-device
`last_backup` field, while the HTML rendering is entirely independent of
`last_backup` and hence omits it. -/
theorem c4_amended (now : String) (m : StatusMap)
    (hbin : ∀ p ∈ m, p.2.status = "connected" ∨ p.2.status = "failed") :
    (m.length - countStatus "connected" m = countStatus "failed" m
      ∧ csvDeviceCount (csvTable m) = m.length
      ∧ csvStatusCount (csvTable m) "connected" = countStatus "connected" m
      ∧ csvStatusCount (csvTable m) "failed" = countStatus "failed" m)
    ∧ (∀ f, htmlReport now (mapSetLB f m) = htmlReport now m)
    ∧ (∀ st : DeviceStatus, st.status = "connected" →
        jsonField (jsonDeviceData st) "last_backup" = some (jsonOptS st.last_backup)
        ∧ (csvRowCells st).get? 8 = some (pyOrEmptyS st.last_backup)
        ∧ (pyTruthyOptS st.last_backup = true →
            ("  Last Backup: " ++ optStr st.last_backup ++ "\n") ∈ textDeviceLines st)) := by
  refine ⟨⟨?_, csvDeviceCount_eq m, csvStatusCount_eq "connected" m,
      csvStatusCount_eq "failed" m⟩, fun f => htmlReport_mapSetLB now f m, ?_⟩
  · have h := countStatus_binary m hbin
    omega
  · intro st hconn
    refine ⟨?_, rfl, ?_⟩
    · simp [jsonDeviceData, jsonField, lookupField, hconn]
    · intro hlb
      simp [textDeviceLines, hconn, hlb]

/-- Witness for C4 amended at the concrete two-device map. -/
theorem c4_amended_witness :
    mapEx.length - countStatus "connected" mapEx = countStatus "failed" mapEx
    ∧ jsonField (jsonDeviceData stConnEx) "last_backup" = some (jsonOptS stConnEx.last_backup)
    ∧ ("  Last Backup: " ++ optStr stConnEx.last_backup ++ "\n") ∈ textDeviceLines stConnEx := by
  have h := c4_amended "T" mapEx (by decide)
  exact ⟨h.1.1, (h.2.2 stConnEx rfl).1, (h.2.2 stConnEx rfl).2.2 rfl⟩

theorem agreesExceptLB_refl (st : DeviceStatus) : agreesExceptLB st st :=
  ⟨rfl, rfl, rfl, rfl, rfl, rfl, rfl, rfl, rfl⟩

theorem agreesExceptLB_trans {a b c : DeviceStatus}
    (h1 : agreesExceptLB a b) (h2 : agreesExceptLB b c) : agreesExceptLB a c :=
  ⟨h2.1.trans h1.1, h2.2.1.trans h1.2.1, h2.2.2.1.trans h1.2.2.1,
   h2.2.2.2.1.trans h1.2.2.2.1, h2.2.2.2.2.1.trans h1.2.2.2.2.1,
   h2.2.2.2.2.2.1.trans h1.2.2.2.2.2.1, h2.2.2.2.2.2.2.1.trans h1.2.2.2.2.2.2.1,
   h2.2.2.2.2.2.2.2.1.trans h1.2.2.2.2.2.2.2.1,
   h2.2.2.2.2.2.2.2.2.trans h1.2.2.2.2.2.2.2.2⟩

theorem mapLookup_mapUpdateLB_ne (n stamp k : String) (hk : k ≠ n) (m : StatusMap) :
    mapLookup (mapUpdateLB m n stamp) k = mapLookup m k := by
  induction m with
  | nil => rfl
  | cons p t ih =>
    cases hpn : p.1 == n with
    | true =>
      have hpk : (p.1 == k) = false :=
        beq_eq_false_iff_ne.mpr (fun h => hk (h.symm.trans (eq_of_beq hpn)))
      simp [mapUpdateLB, mapLookup, hpn, hpk]
    | false =>
      simp only [mapUpdateLB, hpn, Bool.false_eq_true, if_false]
      cases hpk : p.1 == k <;> simp [mapLookup, hpk, ih]

theorem mapLookup_mapUpdateLB_shape (n stamp k : String) (m : StatusMap)
    (st2 : DeviceStatus)
    (h : mapLookup (mapUpdateLB m n stamp) k = some st2) :
    ∃ st, mapLookup m k = some st ∧ agreesExceptLB st st2 := by
  induction m with
  | nil => exact absurd h (by simp [mapUpdateLB, mapLookup])
  | cons p t ih =>
    cases hpn : p.1 == n with
    | true =>
      simp only [mapUpdateLB, hpn, if_true, mapLookup] at h
      cases hpk : p.1 == k with
      | true =>
        simp only [hpk, if_true] at h
        cases Option.some.inj h
        exact ⟨p.2, by simp [mapLookup, hpk],
          ⟨rfl, rfl, rfl, rfl, rfl, rfl, rfl, rfl, rfl⟩⟩
      | false =>
        simp only [hpk, Bool.false_eq_true, if_false] at h
        exact ⟨st2, by simp [mapLookup, hpk]; exact h, agreesExceptLB_refl st2⟩
    | false =>
      simp only [mapUpdateLB, hpn, Bool.false_eq_true, if_false, mapLookup] at h
      cases hpk : p.1 == k with
      | true =>
        simp only [hpk, if_true] at h
        cases Option.some.inj h
        exact ⟨p.2, by simp [mapLookup, hpk], agreesExceptLB_refl p.2⟩
      | false =>
        simp only [hpk, Bool.false_eq_true, if_false] at h
        obtain ⟨st, hst, hag⟩ := ih h
        exact ⟨st, by simp [mapLookup, hpk]; exact hst, hag⟩

theorem mapLookup_mapUpdateLB_isSome (n stamp k : String) (m : StatusMap) :
    (mapLookup (mapUpdateLB m n stamp) k).isSome = (mapLookup m k).isSome := by
  induction m with
  | nil => rfl
  | cons p t ih =>
    cases hpn : p.1 == n <;> cases hpk : p.1 == k <;>
      simp [mapUpdateLB, mapLookup, hpn, hpk, ih]

theorem backupFold_frame : ∀ (tasks : List BackupTask) (r : BackupResults) (m : StatusMap),
    (∀ k, (∀ t ∈ tasks, t.name ≠ k) →
        mapLookup (backupFold tasks r m).2 k = mapLookup m k)
    ∧ (∀ k st2, mapLookup (backupFold tasks r m).2 k = some st2 →
        ∃ st, mapLookup m k = some st ∧ agreesExceptLB st st2)
    ∧ (∀ k, (mapLookup (backupFold tasks r m).2 k).isSome = (mapLookup m k).isSome) := by
  intro tasks
  induction tasks with
  | nil =>
    intro r m
    exact ⟨fun k _ => rfl,
           fun k st2 h => ⟨st2, h, agreesExceptLB_refl st2⟩,
           fun k => rfl⟩
  | cons t ts ih =>
    intro r m
    cases hw : t.writeOk with
    | false =>
      simp only [backupFold, hw, Bool.false_eq_true, if_false]
      exact ⟨fun k hk => (ih _ m).1 k (fun x hx => hk x (List.mem_cons_of_mem t hx)),
             (ih _ m).2.1, (ih _ m).2.2⟩
    | true =>
      simp only [backupFold, hw, if_true]
      cases hsome : (mapLookup m t.name).isSome with
      | false =>
        simp only [hsome, Bool.false_eq_true, if_false]
        exact ⟨fun k hk => (ih _ m).1 k (fun x hx => hk x (List.mem_cons_of_mem t hx)),
               (ih _ m).2.1, (ih _ m).2.2⟩
      | true =>
        simp only [hsome, if_true]
        refine ⟨?_, ?_, ?_⟩
        · intro k hk
          have hne : k ≠ t.name := fun h => (hk t (List.mem_cons_self t ts)) h.symm
          rw [(ih _ (mapUpdateLB m t.name t.statusStamp)).1 k
              (fun x hx => hk x (List.mem_cons_of_mem t hx)),
            mapLookup_mapUpdateLB_ne t.name t.statusStamp k hne m]
        · intro k st2 h
          obtain ⟨st1, hst1, hag1⟩ :=
            (ih _ (mapUpdateLB m t.name t.statusStamp)).2.1 k st2 h
          obtain ⟨st0, hst0, hag0⟩ :=
            mapLookup_mapUpdateLB_shape t.name t.statusStamp k m st1 hst1
          exact ⟨st0, hst0, agreesExceptLB_trans hag0 hag1⟩
        · intro k
          rw [(ih _ (mapUpdateLB m t.name t.statusStamp)).2.2 k,
            mapLookup_mapUpdateLB_isSome]

/-- C8: over any backup run, the status map is changed only at the keys of
the backed-up devices, and even there only in the `last_backup` field:
lookups at other keys are unchanged, every surviving entry agrees with the
original on all fields except `last_backup`, and no entry is created or
removed. -/
theorem c8_backup_frame (tasks : List BackupTask) (m : StatusMap) :
    (∀ k, (∀ t ∈ tasks, t.name ≠ k) →
        mapLookup (backup_configurations tasks m).2 k = mapLookup m k)
    ∧ (∀ k st2, mapLookup (backup_configurations tasks m).2 k = some st2 →
        ∃ st, mapLookup m k = some st ∧ agreesExceptLB st st2)
    ∧ (∀ k, (mapLookup (backup_configurations tasks m).2 k).isSome
        = (mapLookup m k).isSome) :=
  backupFold_frame tasks _ m

/-- Witness for C8 at a concrete backup run over the two-device map. -/
theorem c8_backup_frame_witness :
    mapLookup (backup_configurations tasksEx mapEx).2 "r2" = mapLookup mapEx "r2"
    ∧ ∃ st, mapLookup mapEx "r1" = some st
        ∧ agreesExceptLB st { stConnEx with last_backup := some "2024-01-01 00:00:00" } :=
  ⟨(c8_backup_frame tasksEx mapEx).1 "r2" (by decide),
   (c8_backup_frame tasksEx mapEx).2.1 "r1"
     { stConnEx with last_backup := some "2024-01-01 00:00:00" } rfl⟩

theorem loadStep_fst (data : JsonVal) (r : Bool × List JsonVal)
    (h : loadStep data = some r) : r.1 = decide (0 < r.2.length) := by
  unfold loadStep at h
  repeat' split at h
  all_goals first
    | exact Option.noConfusion h
    | (cases Option.some.inj h; rfl)

/-- C2 counterexample: the file content `{"devices": []}` is valid JSON,
yet `load_devices` reports failure (it returns `len(self.devices) > 0`,
which is false when no validated device remains) — so valid JSON alone does
not imply success. -/
theorem c2_counterexample :
    load_devices (.content (JsonVal.obj [("devices", JsonVal.arr [])])) = (false, []) := rfl

/-- C2 amended: the loader reports success exactly when at least one
validated device remains (so it also returns `False` on valid JSON whose
records all fail validation, or none exist); on an object with a `devices`
array it drops the records that fail validation, keeps the ones that pass,
and succeeds iff the kept list is non-empty. -/
theorem c2_amended :
    (∀ fr, (load_devices fr).1 = true ↔ (load_devices fr).2 ≠ [])
    ∧ (∀ records valid, filterValid records = some valid →
        load_devices (.content (JsonVal.obj [("devices", JsonVal.arr records)]))
          = (decide (0 < valid.length), valid)) := by
  constructor
  · intro fr
    cases fr with
    | absent => simp [load_devices]
    | invalidJson => simp [load_devices]
    | content data =>
      cases hs : loadStep data with
      | none => simp [load_devices, hs]
      | some r =>
        have hr := loadStep_fst data r hs
        simp only [load_devices, hs, Option.getD_some]
        rw [hr]
        simp [List.length_pos]
  · intro records valid hv
    simp [load_devices, loadStep, pyContains, lookupField, pyGetItem, pyLen,
      pyEnumerate, hv]

/-- Witness for C2 amended: a two-record file with one valid and one
invalid record loads exactly the valid one and succeeds. -/
theorem c2_amended_witness :
    load_devices (.content (JsonVal.obj
        [("devices", JsonVal.arr [recSample, recBadHost])]))
      = (true, [recSample]) := by
  have h := c2_amended.2 [recSample, recBadHost] [recSample] rfl
  simpa using h

/-- C10 counterexample: a top-level array that happens to contain the
string `"devices"` as an element is not treated as the candidate list: the
Python membership test `'devices' in data` succeeds on the list, then
`data['devices']` raises `TypeError`, so `load_devices` returns `False`
even though the array holds a validated record. -/
theorem c10_counterexample :
    load_devices (.content (JsonVal.arr [JsonVal.str "devices", recSample])) = (false, [])
    ∧ filterValid [JsonVal.str "devices", recSample] = some [recSample] :=
  ⟨rfl, rfl⟩

/-- C10 amended: a top-level JSON array is accepted and used as the
candidate record list, provided the array does not contain the exact
string `"devices"` as an element (in that case the `'devices' in data`
membership test sends it down the object path and the string-indexing of a
list raises, so the loader returns `False`). -/
theorem c10_amended (records valid : List JsonVal)
    (hnostr : records.any (strEqJson "devices") = false)
    (hv : filterValid records = some valid) :
    load_devices (.content (JsonVal.arr records)) = (decide (0 < valid.length), valid) := by
  simp [load_devices, loadStep, pyContains, pyGetItem, pyLen, pyEnumerate, hnostr, hv]

/-- Witness for C10 amended: a one-element top-level array loads its
record. -/
theorem c10_amended_witness :
    load_devices (.content (JsonVal.arr [recSample])) = (true, [recSample]) := by
  have h := c10_amended [recSample] [recSample] rfl rfl
  simpa using h

/-- C5 counterexample: the record with host `1.2.3` is accepted by the
validator (inet_aton accepts strings with fewer than three dots), yet
`1.2.3` is not a syntactically valid IPv4 dotted-quad — so validation is
not equivalent to the dotted-quad check the claim states. -/
theorem c5_counterexample :
    validateDevice rec3Part = some true ∧ isDottedQuad "1.2.3" = false :=
  ⟨rfl, rfl⟩

/-- C5 amended: the validator accepts a record iff it is an object whose
four required fields are present with truthy values and whose `host` is a
string accepted by the inet(3) numbers-and-dots parser (which also admits
1-, 2- and 3-part and hex/octal forms); `999.999.999.999` is still
rejected, so the single-record file with that host loads 0 devices and
reports failure. -/
theorem c5_amended :
    (∀ d, validateDevice d = some true ↔ validRecordSpec d = true)
    ∧ load_devices (.content (JsonVal.obj [("devices", JsonVal.arr [recBadHost])]))
        = (false, []) := by
  constructor
  · intro d
    cases d with
    | null =>
      simp [validateDevice, checkFields, requiredFields, pyContains, pyGetItem,
        validRecordSpec]
    | bool b =>
      simp [validateDevice, checkFields, requiredFields, pyContains, pyGetItem,
        validRecordSpec]
    | num n =>
      simp [validateDevice, checkFields, requiredFields, pyContains, pyGetItem,
        validRecordSpec]
    | str s =>
      cases hb : strContains s "device_type" <;>
        simp [validateDevice, checkFields, requiredFields, pyContains, pyGetItem,
          validRecordSpec, hb]
    | arr xs =>
      cases hb : xs.any (strEqJson "device_type") <;>
        simp [validateDevice, checkFields, requiredFields, pyContains, pyGetItem,
          validRecordSpec, hb]
    | obj fs =>
      cases h1 : lookupField fs "device_type" with
      | none =>
        simp [validateDevice, checkFields, requiredFields, pyContains, pyGetItem,
          validRecordSpec, h1]
      | some v1 =>
        cases ht1 : truthy v1 with
        | false =>
          simp [validateDevice, checkFields, requiredFields, pyContains, pyGetItem,
            validRecordSpec, h1, ht1]
        | true =>
          cases h2 : lookupField fs "host" with
          | none =>
            simp [validateDevice, checkFields, requiredFields, pyContains, pyGetItem,
              validRecordSpec, h1, ht1, h2]
          | some v2 =>
            cases ht2 : truthy v2 with
            | false =>
              simp [validateDevice, checkFields, requiredFields, pyContains, pyGetItem,
                validRecordSpec, h1, ht1, h2, ht2]
            | true =>
              cases h3 : lookupField fs "username" with
              | none =>
                simp [validateDevice, checkFields, requiredFields, pyContains, pyGetItem,
                  validRecordSpec, h1, ht1, h2, ht2, h3]
              | some v3 =>
                cases ht3 : truthy v3 with
                | false =>
                  simp [validateDevice, checkFields, requiredFields, pyContains,
                    pyGetItem, validRecordSpec, h1, ht1, h2, ht2, h3, ht3]
                | true =>
                  cases h4 : lookupField fs "password" with
                  | none =>
                    simp [validateDevice, checkFields, requiredFields, pyContains,
                      pyGetItem, validRecordSpec, h1, ht1, h2, ht2, h3, ht3, h4]
                  | some v4 =>
                    cases ht4 : truthy v4 with
                    | false =>
                      simp [validateDevice, checkFields, requiredFields, pyContains,
                        pyGetItem, validRecordSpec, h1, ht1, h2, ht2, h3, ht3, h4, ht4]
                    | true =>
                      cases v2 <;>
                        simp [validateDevice, checkFields, requiredFields, pyContains,
                          pyGetItem, validRecordSpec, h1, ht1, h2, ht2, h3, ht3, h4, ht4]
  · rfl

/-- Witness for C5 amended: the sample record with a proper dotted-quad
host is accepted, via the amended equivalence. -/
theorem c5_amended_witness : validateDevice recSample = some true :=
  (c5_amended.1 recSample).mpr rfl

end NetInv
